import Mathlib

/-!
A shallow embedding of the input-to-MIDI control core of the
Midi-Slider-Cherry firmware (`src/inputs.py`, `src/controller.py`,
`src/midi.py`, `src/constants.py`), together with theorems settling the
behavioural claims about it.

Python floats are modelled as exact rationals (`ℚ`), Python ints as `ℤ`
(with `ℕ` where the source value is an index), Python lists as `List`.
Indexing `xs[i]` is modelled with `List.getD`; the firmware only indexes
with values inside the list bounds, so the default value is never the
one read in any reachable state considered here.
-/

namespace MidiCherry

/-! ## Constants (`src/constants.py`) -/

namespace cfg

/-- Constant `LONG_HOLD_THRESH_S = 0.5`. -/
def LONG_HOLD_THRESH_S : ℚ := 1/2

/-- Constant `DOUBLE_PRESS_TIME = 0.3`. -/
def DOUBLE_PRESS_TIME : ℚ := 3/10

/-- Constant `SLOW_SMOOTHING_FACTOR = 0.2`. -/
def SLOW_SMOOTHING_FACTOR : ℚ := 1/5

/-- Constant `FAST_SMOOTHING_FACTOR = 0.85`. -/
def FAST_SMOOTHING_FACTOR : ℚ := 17/20

/-- Constant `MOVEMENT_THRESHOLD = 1000`. -/
def MOVEMENT_THRESHOLD : ℚ := 1000

/-- Constant `MIDDLE_RANGE_START = 30000`. -/
def MIDDLE_RANGE_START : ℚ := 30000

/-- Constant `MIDDLE_RANGE_END = 40000`. -/
def MIDDLE_RANGE_END : ℚ := 40000

/-- Constant `MIDDLE_RANGE_SMOOTHING_FACTOR = 0.05`. -/
def MIDDLE_RANGE_SMOOTHING_FACTOR : ℚ := 1/20

/-- Constant `CC_THRESHOLD = 2`. -/
def CC_THRESHOLD : ℤ := 2

/-- Constant `MIN_CC_VALUE = 0`. -/
def MIN_CC_VALUE : ℤ := 0

/-- Constant `MAX_CC_VALUE = 127`. -/
def MAX_CC_VALUE : ℤ := 127

end cfg

/-- Python's `int()` applied to a float: truncation toward zero.
On the nonnegative values arising in the slider filter it agrees
with the floor. -/
def pyInt (q : ℚ) : ℤ := if 0 ≤ q then ⌊q⌋ else -⌊-q⌋

/-! ## `MidiSlider` (`src/inputs.py`)

One structure holds every per-slider field the source mutates:
the smoothing state written by `MidiSlider.update`, and the CC
assignment / pickup-mode tracking fields written by the controller.
The per-instance copies of the smoothing constants are not repeated as
fields: the source only ever copies them verbatim from `constants.py`,
so the embedding reads `cfg.*` directly. -/

structure MidiSlider where
  lastValue : ℚ
  currentValue : ℚ
  smoothedValue : ℚ
  ccValue : ℤ
  ccValueChanged : Bool
  currentAssignedCcNumber : ℤ
  additionalAssignedCcNumbers : List ℤ
  crossingCcValue : ℤ
  hasCrossedLastCcValue : Bool
  deriving Repr, DecidableEq

/-- The field values set in `MidiSlider.__init__`. -/
def initMidiSlider : MidiSlider :=
  { lastValue := 0
    currentValue := 0
    smoothedValue := 0
    ccValue := 0
    ccValueChanged := false
    currentAssignedCcNumber := -1
    additionalAssignedCcNumbers := []
    crossingCcValue := -1
    hasCrossedLastCcValue := false }

/-- Method `MidiSlider.get_smoothing_factor` (`src/inputs.py`). The source reads
`self.current_value`, which `update` has just assigned, so the embedding
takes it as the first argument. -/
def getSmoothingFactor (currentValue valueDifference : ℚ) : ℚ :=
  let factor :=
    if valueDifference > cfg.MOVEMENT_THRESHOLD then cfg.FAST_SMOOTHING_FACTOR
    else cfg.SLOW_SMOOTHING_FACTOR
  if cfg.MIDDLE_RANGE_START ≤ currentValue ∧ currentValue ≤ cfg.MIDDLE_RANGE_END then
    min factor cfg.MIDDLE_RANGE_SMOOTHING_FACTOR
  else factor

/-- Method `MidiSlider.update` (`src/inputs.py`): invert the raw analog sample,
smooth it, quantize to a CC value, and flag a change. The raw sample
`analog_pin.value` becomes the argument `raw`. -/
def sliderUpdate (s : MidiSlider) (raw : ℤ) : MidiSlider :=
  let currentValue : ℚ := 65536 - (raw : ℚ)
  let valueDifference := |currentValue - s.lastValue|
  let smoothingFactor := getSmoothingFactor currentValue valueDifference
  let smoothedValue :=
    smoothingFactor * currentValue + (1 - smoothingFactor) * s.smoothedValue
  let calculatedCcValue := pyInt (smoothedValue / 512)
  let s :=
    if calculatedCcValue ≠ s.ccValue then
      { s with ccValue := calculatedCcValue, ccValueChanged := true }
    else
      { s with ccValueChanged := false }
  { s with currentValue := currentValue, smoothedValue := smoothedValue,
           lastValue := currentValue }

/-- Run `MidiSlider.update` over a whole sequence of raw samples. -/
def sliderRun (s : MidiSlider) (raws : List ℤ) : MidiSlider :=
  raws.foldl sliderUpdate s

/-! ## Pickup-mode gate: `MidiController.should_send_cc` (`src/controller.py`)

The source method reads `self.jump_mode_enabled` and the ledger value
`midi_manager.get_last_cc_value_sent(cc_number)`; both become arguments.
It mutates the slider's `crossing_cc_value` / `has_crossed_last_cc_value`
fields and returns a Bool, so the embedding returns the updated slider
paired with the Bool. -/
def shouldSendCC (jumpModeEnabled : Bool) (lastCcSent : ℤ) (slider : MidiSlider) :
    MidiSlider × Bool :=
  let ccValue := slider.ccValue
  -- Jump Mode always allows sending values immediately
  if jumpModeEnabled then (slider, true)
  -- First-time initialization of crossing values
  else if slider.crossingCcValue = -1 then
    ({ slider with crossingCcValue := ccValue, hasCrossedLastCcValue := false }, false)
  -- Special handling for min/max edge values
  else if lastCcSent = cfg.MIN_CC_VALUE ∧ cfg.MIN_CC_VALUE ≤ ccValue ∧ ccValue ≤ 2 then
    ({ slider with hasCrossedLastCcValue := true }, true)
  else if lastCcSent = cfg.MAX_CC_VALUE ∧ 125 ≤ ccValue ∧ ccValue ≤ cfg.MAX_CC_VALUE then
    ({ slider with hasCrossedLastCcValue := true }, true)
  -- Once crossed threshold, continue sending all values
  else if slider.hasCrossedLastCcValue then (slider, true)
  -- Check if slider has crossed the last value from either direction
  else if (ccValue < lastCcSent ∧ lastCcSent < slider.crossingCcValue) ∨
          (lastCcSent < ccValue ∧ slider.crossingCcValue < lastCcSent) then
    ({ slider with hasCrossedLastCcValue := true }, true)
  -- Skip small changes within the deadband
  else if |ccValue - lastCcSent| < cfg.CC_THRESHOLD then (slider, false)
  -- Update tracking value for future comparisons
  else ({ slider with crossingCcValue := ccValue }, false)

/-- Feed a sequence of freshly computed `cc_value`s through the gate
(each poll cycle `MidiSlider.update` stores the new value in
`slider.cc_value` before `should_send_cc` reads it), collecting the
gate's verdicts. `last_cc_sent` stays fixed because a denied cycle sends
nothing and an authorized cycle is past the point the claims examine. -/
def gateRunOutputs (jumpModeEnabled : Bool) (lastCcSent : ℤ) :
    MidiSlider → List ℤ → List Bool
  | _, [] => []
  | s, v :: vs =>
    let r := shouldSendCC jumpModeEnabled lastCcSent { s with ccValue := v }
    r.2 :: gateRunOutputs jumpModeEnabled lastCcSent r.1 vs

/-! ## `MidiManager` (`src/midi.py`)

The manager's mutable state is `last_cc_values_sent`, a 128-entry list.
The transports (`self.midi`, `self.trs_midi`) are external collaborators;
the embedding returns the list of `ControlChange(cc_number, cc_value)`
messages handed to them instead of transmitting. CC numbers are `ℤ`
(Python ints); the firmware only uses numbers in `[0,127]`, so indexing
uses `Int.toNat`. -/

/-- Constructor `MidiManager.__init__`: `self.last_cc_values_sent = [16] * 128`. -/
def initLastCcValuesSent : List ℤ := List.replicate 128 16

/-- Method `MidiManager.has_cc_value_changed`. -/
def hasCcValueChanged (lastCcValuesSent : List ℤ) (ccNumber ccValue : ℤ) : Prop :=
  ccValue ≠ lastCcValuesSent.getD ccNumber.toNat 0

instance (l : List ℤ) (n v : ℤ) : Decidable (hasCcValueChanged l n v) :=
  inferInstanceAs (Decidable (v ≠ l.getD n.toNat 0))

/-- Method `MidiManager.send_cc`: walk `cc_list`, and for each number whose value
changed, update the ledger and append a `(cc_number, cc_value)` message.
Returns the updated ledger and the messages given to the transports. -/
def sendCC (lastCcValuesSent : List ℤ) : List ℤ → ℤ → List ℤ × List (ℤ × ℤ)
  | [], _ => (lastCcValuesSent, [])
  | ccNumber :: rest, ccValue =>
    if hasCcValueChanged lastCcValuesSent ccNumber ccValue then
      let r := sendCC (lastCcValuesSent.set ccNumber.toNat ccValue) rest ccValue
      (r.1, (ccNumber, ccValue) :: r.2)
    else
      sendCC lastCcValuesSent rest ccValue

/-- Method `MidiManager.get_last_cc_value_sent`. -/
def getLastCcValueSent (lastCcValuesSent : List ℤ) (ccNumber : ℤ) : ℤ :=
  lastCcValuesSent.getD ccNumber.toNat 0

/-- A whole sequence of `send_cc` calls, concatenating the message
streams handed to the transports in order. -/
def runSendCC (lastCcValuesSent : List ℤ) :
    List (List ℤ × ℤ) → List ℤ × List (ℤ × ℤ)
  | [] => (lastCcValuesSent, [])
  | (ccList, ccValue) :: calls =>
    let r := sendCC lastCcValuesSent ccList ccValue
    let r2 := runSendCC r.1 calls
    (r2.1, r.2 ++ r2.2)

/-! ## `BankButton` (`src/inputs.py`)

The debounced pin is an external collaborator: `self.button.fell`,
`self.button.rose`, `self.button.value` and `time.monotonic()` become the
arguments `fell`, `rose`, `value`, `currentTime` of `update`. The
debounced level `value` is kept as a field so the live `pressed`
property (`not self.button.value`) can be read between updates. -/

structure BankButton where
  /-- Debounced pin level (`self.button.value`); low (`false`) = pressed. -/
  value : Bool
  lastPressTimeVal : ℚ
  holdTimeVal : ℚ
  isLongHeldVal : Bool
  wasLongHeldVal : Bool
  doublePressDetected : Bool
  lastReleaseTime : ℚ
  detectedNewRelease : Bool
  detectedNewPress : Bool
  deriving Repr, DecidableEq

/-- The field values set in `BankButton.__init__` (pin released = high). -/
def initBankButton : BankButton :=
  { value := true
    lastPressTimeVal := 0
    holdTimeVal := 0
    isLongHeldVal := false
    wasLongHeldVal := false
    doublePressDetected := false
    lastReleaseTime := 0
    detectedNewRelease := false
    detectedNewPress := false }

/-- Property `BankButton.pressed`. -/
def BankButton.pressed (b : BankButton) : Bool := !b.value

/-- Property `BankButton.hold_time`. -/
def BankButton.holdTime (b : BankButton) : ℚ := b.holdTimeVal

/-- Property `BankButton.was_long_held`. -/
def BankButton.wasLongHeld (b : BankButton) : Bool := b.wasLongHeldVal

/-- Property `BankButton.was_double_pressed`. -/
def BankButton.wasDoublePressed (b : BankButton) : Bool := b.doublePressDetected

/-- Method `BankButton.update`: returns the updated button paired with
`state_changed`. -/
def bankButtonUpdate (b : BankButton) (fell rose value : Bool) (currentTime : ℚ) :
    BankButton × Bool :=
  let b := { b with
    detectedNewRelease := false
    detectedNewPress := false
    doublePressDetected := false
    wasLongHeldVal := false
    value := value }
  let currentlyPressed := !value
  -- Button just pressed
  if fell then
    let dp := currentTime - b.lastPressTimeVal ≤ cfg.DOUBLE_PRESS_TIME
    ({ b with
        doublePressDetected := decide dp
        lastPressTimeVal := currentTime
        holdTimeVal := 1/100
        detectedNewPress := true }, true)
  else if rose then
    ({ b with
        holdTimeVal := 0
        lastReleaseTime := currentTime
        detectedNewRelease := true
        wasLongHeldVal := b.isLongHeldVal
        isLongHeldVal := false }, true)
  -- Button state did not change
  else if currentlyPressed then
    let holdTimeVal := currentTime - b.lastPressTimeVal
    let b := { b with holdTimeVal := holdTimeVal }
    if cfg.LONG_HOLD_THRESH_S ≤ holdTimeVal ∧ ¬b.isLongHeldVal then
      ({ b with isLongHeldVal := true }, false)
    else (b, false)
  else
    ({ b with holdTimeVal := 0, isLongHeldVal := false, doublePressDetected := false },
      false)

/-! ## `MidiController` (`src/controller.py`)

The CC assignment tables `cfg.GLOBAL_CC_BANK` / `cfg.CC_BANK_GROUPS` are
loaded once from settings and immutable, so they are passed as the
parameters `globalCcBank` / `ccBankGroups` instead of being stored.
The global `midi_manager` singleton's ledger is carried as the field
`lastCcValuesSent`. -/

structure MidiController where
  currentBankGroupIdx : ℤ
  currentBankIdx : ℤ
  additionalBankIndicies : List ℕ
  longestHeldButtonIdx : ℤ
  hasAnythingChanged : Bool
  lockedBankIdx : ℤ
  jumpModeEnabled : Bool
  unlockPending : Bool
  sliders : List MidiSlider
  buttons : List BankButton
  lastCcValuesSent : List ℤ
  deriving Repr, DecidableEq

/-- One iteration of the loop in
`MidiController.update_held_button_indicies`. The accumulator carries
(`additional_bank_indicies` so far, `max_hold_time`, `max_hold_time_idx`);
`ib` is the `enumerate` pair (index, button). -/
def heldButtonStep (acc : List ℕ × ℚ × ℤ) (ib : ℕ × BankButton) : List ℕ × ℚ × ℤ :=
  let acc := if ib.2.pressed then (acc.1 ++ [ib.1], acc.2.1, acc.2.2) else acc
  if ib.2.holdTime > acc.2.1 then (acc.1, ib.2.holdTime, (ib.1 : ℤ)) else acc

/-- Method `MidiController.update_held_button_indicies`: rebuild
`additional_bank_indicies` from the pressed buttons and pick the index
with the strictly largest hold time (`-1` when no hold time is
positive). -/
def updateHeldButtonIndicies (c : MidiController) : MidiController :=
  let r := c.buttons.enum.foldl heldButtonStep ([], 0, -1)
  { c with additionalBankIndicies := r.1, longestHeldButtonIdx := r.2.2 }

/-- Method `MidiController.get_current_cc_bank`. -/
def getCurrentCcBank (ccBankGroups : List (List (List ℤ))) (globalCcBank : List ℤ)
    (c : MidiController) : List ℤ :=
  if c.currentBankIdx = -1 then globalCcBank
  else (ccBankGroups.getD c.currentBankGroupIdx.toNat []).getD c.currentBankIdx.toNat []

/-- Method `MidiController.get_additional_cc_numbers`: one CC number per entry of
`additional_bank_indicies`, looked up in that bank at the slider's
position. -/
def getAdditionalCcNumbers (ccBankGroups : List (List (List ℤ)))
    (c : MidiController) (idx : ℕ) : List ℤ :=
  c.additionalBankIndicies.map
    (fun buttonIdx =>
      ((ccBankGroups.getD c.currentBankGroupIdx.toNat []).getD buttonIdx []).getD idx 0)

/-- Method `MidiController.update_slider_cc_assignments`. -/
def updateSliderCcAssignments (ccBankGroups : List (List (List ℤ)))
    (globalCcBank : List ℤ) (c : MidiController) : MidiController :=
  let currentCcBank := getCurrentCcBank ccBankGroups globalCcBank c
  { c with sliders := c.sliders.enum.map (fun (p : ℕ × MidiSlider) =>
      let idx := p.1
      let slider := p.2
      -- Step 1: primary CC number; Step 2: secondary CC numbers
      let slider :=
        if c.currentBankIdx = -1 then
          { slider with
              currentAssignedCcNumber := globalCcBank.getD idx 0
              additionalAssignedCcNumbers := [] }
        else
          let slider := { slider with currentAssignedCcNumber := currentCcBank.getD idx 0 }
          if c.additionalBankIndicies ≠ [] then
            { slider with
                additionalAssignedCcNumbers := getAdditionalCcNumbers ccBankGroups c idx }
          else { slider with additionalAssignedCcNumbers := [] }
      -- Step 3: reset pickup-mode tracking
      let lastCcSent := getLastCcValueSent c.lastCcValuesSent slider.currentAssignedCcNumber
      { slider with
          crossingCcValue := lastCcSent
          hasCrossedLastCcValue := false
          ccValueChanged := false }) }

/-- Method `MidiController.update_active_bank`. -/
def updateActiveBank (ccBankGroups : List (List (List ℤ))) (globalCcBank : List ℤ)
    (c : MidiController) : MidiController :=
  let previousBankIdx := c.currentBankIdx
  let previousAdditionalIndicies := c.additionalBankIndicies
  let c := updateHeldButtonIndicies c
  let c :=
    { c with currentBankIdx :=
        if c.lockedBankIdx ≠ -1 then c.lockedBankIdx else c.longestHeldButtonIdx }
  if previousBankIdx ≠ c.currentBankIdx ∨
      previousAdditionalIndicies ≠ c.additionalBankIndicies then
    updateSliderCcAssignments ccBankGroups globalCcBank c
  else c

/-- Method `MidiController.lock_bank`. -/
def lockBank (ccBankGroups : List (List (List ℤ))) (globalCcBank : List ℤ)
    (c : MidiController) (bankIdx : ℕ) : MidiController :=
  updateActiveBank ccBankGroups globalCcBank
    { c with lockedBankIdx := (bankIdx : ℤ), unlockPending := false }

/-- Method `MidiController.unlock_bank`. -/
def unlockBank (ccBankGroups : List (List (List ℤ))) (globalCcBank : List ℤ)
    (c : MidiController) : MidiController :=
  if c.lockedBankIdx ≠ -1 then
    updateActiveBank ccBankGroups globalCcBank
      { c with lockedBankIdx := -1, unlockPending := false }
  else c

/-- Method `MidiController.handle_lock_changes`. The `for ... return` over the
buttons fires on the first button whose `was_double_pressed` is set,
modelled with `List.findIdx?`. -/
def handleLockChanges (ccBankGroups : List (List (List ℤ))) (globalCcBank : List ℤ)
    (c : MidiController) : MidiController :=
  let allButtonsReleased := c.buttons.all (fun b => !b.pressed)
  let anyNewButtonPress := c.buttons.any (fun b => b.detectedNewPress)
  -- Step 1: arm unlock_pending when all buttons are released after a lock
  let c :=
    if c.lockedBankIdx ≠ -1 ∧ allButtonsReleased ∧ ¬c.unlockPending then
      { c with unlockPending := true }
    else c
  -- Step 2: double-press events lock/unlock
  match c.buttons.findIdx? (fun b => b.wasDoublePressed) with
  | some idx =>
    if c.lockedBankIdx = (idx : ℤ) then unlockBank ccBankGroups globalCcBank c
    else lockBank ccBankGroups globalCcBank c idx
  -- Step 3: fresh press after unlock_pending was armed
  | none =>
    if c.unlockPending ∧ anyNewButtonPress then unlockBank ccBankGroups globalCcBank c
    else c

/-- Method `MidiController.next_bank_group`. -/
def nextBankGroup (c : MidiController) : MidiController :=
  let newIdx := c.currentBankGroupIdx + 1
  if newIdx ≤ 3 then { c with currentBankGroupIdx := newIdx } else c

/-- Method `MidiController.previous_bank_group`. -/
def previousBankGroup (c : MidiController) : MidiController :=
  let newIdx := c.currentBankGroupIdx - 1
  if 0 ≤ newIdx then { c with currentBankGroupIdx := newIdx } else c

/-- Method `MidiController.send_cc_messages`: for each slider in order, if its CC
value changed, consult the gate (which mutates the slider's tracking
fields); on authorization send over `midi_manager` (updating the ledger)
and clear the changed flag. -/
def sendCcMessages (c : MidiController) : MidiController :=
  let r := c.sliders.foldl
    (fun (acc : List MidiSlider × List ℤ) (slider : MidiSlider) =>
      if slider.ccValueChanged then
        let ccNumbers := slider.currentAssignedCcNumber :: slider.additionalAssignedCcNumbers
        let g := shouldSendCC c.jumpModeEnabled
          (getLastCcValueSent acc.2 slider.currentAssignedCcNumber) slider
        if g.2 then
          (acc.1 ++ [{ g.1 with ccValueChanged := false }],
            (sendCC acc.2 ccNumbers g.1.ccValue).1)
        else (acc.1 ++ [g.1], acc.2)
      else (acc.1 ++ [slider], acc.2))
    ([], c.lastCcValuesSent)
  { c with sliders := r.1, lastCcValuesSent := r.2 }

/-- Local `buttons[-1]` (top button) in `process_inputs`. -/
def topButton (c : MidiController) : BankButton := c.buttons.getLastD initBankButton

/-- Local `buttons[1]` in `process_inputs`. -/
def middleButtonT (c : MidiController) : BankButton := c.buttons.getD 1 initBankButton

/-- Local `buttons[2]` in `process_inputs`. -/
def middleButtonB (c : MidiController) : BankButton := c.buttons.getD 2 initBankButton

/-- Local `buttons[0]` (bottom button) in `process_inputs`. -/
def bottomButton (c : MidiController) : BankButton := c.buttons.getD 0 initBankButton

/-- The guard of the "switch to next bank group" early return in
`process_inputs`: bottom held, top just released without long-hold. -/
def nextBankGroupGesture (c : MidiController) : Prop :=
  (bottomButton c).holdTime > 0 ∧ (topButton c).detectedNewRelease = true ∧
    (topButton c).wasLongHeld = false

/-- The guard of the "switch to previous bank group" early return in
`process_inputs`: top held, bottom just released without long-hold. -/
def previousBankGroupGesture (c : MidiController) : Prop :=
  (topButton c).holdTime > 0 ∧ (bottomButton c).detectedNewRelease = true ∧
    (bottomButton c).wasLongHeld = false

instance (c : MidiController) : Decidable (nextBankGroupGesture c) :=
  inferInstanceAs (Decidable (_ ∧ _ ∧ _))

instance (c : MidiController) : Decidable (previousBankGroupGesture c) :=
  inferInstanceAs (Decidable (_ ∧ _ ∧ _))

/-- Method `MidiController.process_inputs`. -/
def processInputs (ccBankGroups : List (List (List ℤ))) (globalCcBank : List ℤ)
    (c : MidiController) : MidiController :=
  if ¬c.hasAnythingChanged then c
  else
    let c := handleLockChanges ccBankGroups globalCcBank c
    -- Switch to next bank group if bottom is held, top is released
    if nextBankGroupGesture c then
      unlockBank ccBankGroups globalCcBank (nextBankGroup c)
    -- Switch to previous bank group if top is held, bottom is released
    else if previousBankGroupGesture c then
      unlockBank ccBankGroups globalCcBank (previousBankGroup c)
    else
      -- Check for Jump Mode
      let middleButtonsHeld :=
        (middleButtonT c).holdTime > 0 ∧ (middleButtonB c).holdTime > 0
      if middleButtonsHeld ∧ (topButton c).detectedNewRelease = true ∧
          (topButton c).wasLongHeld = false then
        { c with jumpModeEnabled := !c.jumpModeEnabled }
      else if middleButtonsHeld ∧ (bottomButton c).detectedNewRelease = true ∧
          (bottomButton c).wasLongHeld = false then
        { c with jumpModeEnabled := !c.jumpModeEnabled }
      else
        sendCcMessages (updateActiveBank ccBankGroups globalCcBank c)

/-! ### Default CC tables (`src/settings.py`)

The built-in default assignment tables, used for concrete states in the
theorems below (the tables are configuration: every claim here holds for
arbitrary tables, and counterexamples use the defaults). -/

/-- Table `Settings.DEFAULT_GLOBAL_CC_BANK`. -/
def defaultGlobalCcBank : List ℤ := [0, 1, 2, 3]

/-- Tables `Settings.DEFAULT_CC_BANKS_1` through `DEFAULT_CC_BANKS_4`, collected
as `Settings.get_all_cc_bank_groups` does. -/
def defaultCcBankGroups : List (List (List ℤ)) :=
  [ [[4, 5, 6, 7], [8, 9, 10, 11], [12, 13, 14, 15], [16, 17, 18, 19]],
    [[20, 21, 22, 23], [24, 25, 26, 27], [28, 29, 30, 31], [32, 33, 34, 35]],
    [[36, 37, 38, 39], [40, 41, 42, 43], [44, 45, 46, 47], [48, 49, 50, 51]],
    [[52, 53, 54, 55], [56, 57, 58, 59], [60, 61, 62, 63], [64, 65, 66, 67]] ]

/-- The mutable controller fields as `MidiController.__init__` leaves
them (after `setup_sliders` / `setup_buttons` with 4 sliders and 4
buttons, before `setup_cc_banks` overwrites the sliders' assigned CC
numbers with the global bank). -/
def initMidiController : MidiController :=
  { currentBankGroupIdx := 0
    currentBankIdx := 0
    additionalBankIndicies := []
    longestHeldButtonIdx := 0
    hasAnythingChanged := false
    lockedBankIdx := -1
    jumpModeEnabled := false
    unlockPending := false
    sliders := List.replicate 4 initMidiSlider
    buttons := List.replicate 4 initBankButton
    lastCcValuesSent := initLastCcValuesSent }

/-- A pressed bank button holding for `t` seconds. -/
def heldButton (t : ℚ) : BankButton :=
  { initBankButton with value := false, holdTimeVal := t }

/-- A bank button that was just released this cycle, without having been
long-held. -/
def justReleasedButton : BankButton :=
  { initBankButton with detectedNewRelease := true }

/-- Concrete controller state: buttons 1 and 2 held (button 1 the
longest), used for the CC-layering counterexample. -/
def cHeldButtons12 : MidiController :=
  { initMidiController with
      buttons := [initBankButton, heldButton 5, heldButton 3, initBankButton] }

/-- Concrete controller state at bank group `gIdx` with the
next-bank-group gesture pending: bottom held, top just released. -/
def cNextGestureAt (gIdx : ℤ) : MidiController :=
  { initMidiController with
      hasAnythingChanged := true
      currentBankGroupIdx := gIdx
      buttons := [heldButton 1, initBankButton, initBankButton, justReleasedButton] }

/-- Concrete controller state at bank group 0 with the
previous-bank-group gesture pending: top held, bottom just released. -/
def cPrevGestureAt0 : MidiController :=
  { initMidiController with
      hasAnythingChanged := true
      buttons := [justReleasedButton, initBankButton, initBankButton, heldButton 1] }

/-- Concrete controller state where both middle buttons and the bottom
button are held and the top button was just released: both the
next-bank-group gesture and the jump-mode gesture are satisfied. -/
def cNavAndJumpGesture : MidiController :=
  { initMidiController with
      hasAnythingChanged := true
      buttons := [heldButton 1, heldButton 2, heldButton 2, justReleasedButton] }

/-- Concrete controller state as `update_active_bank` leaves it when
buttons 1 and 2 are held with button 1 the longest: active bank 1,
additional bank indices `[1, 2]`. -/
def cLayering : MidiController :=
  { cHeldButtons12 with currentBankIdx := 1, additionalBankIndicies := [1, 2] }

/-- Concrete controller state where button 1 reports a double-press. -/
def cDoublePressOn1 : MidiController :=
  { initMidiController with
      buttons := [initBankButton, { initBankButton with doublePressDetected := true },
        initBankButton, initBankButton] }

/-- Invariant maintained by `MidiSlider.update`: the smoothed value
stays inside `[0, 65536)` and the quantized CC value inside `[0, 127]`. -/
def SliderInv (s : MidiSlider) : Prop :=
  0 ≤ s.smoothedValue ∧ s.smoothedValue < 65536 ∧ 0 ≤ s.ccValue ∧ s.ccValue ≤ 127


/-! ## Claim C1: the slider's CC value stays in [0,127] -/

lemma getSmoothingFactor_pos (currentValue valueDifference : ℚ) :
    0 < getSmoothingFactor currentValue valueDifference := by
  unfold getSmoothingFactor cfg.FAST_SMOOTHING_FACTOR cfg.SLOW_SMOOTHING_FACTOR
    cfg.MIDDLE_RANGE_SMOOTHING_FACTOR
  split <;> split <;> norm_num [lt_min_iff]

lemma getSmoothingFactor_le (currentValue valueDifference : ℚ) :
    getSmoothingFactor currentValue valueDifference ≤ 17/20 := by
  unfold getSmoothingFactor cfg.FAST_SMOOTHING_FACTOR cfg.SLOW_SMOOTHING_FACTOR
    cfg.MIDDLE_RANGE_SMOOTHING_FACTOR
  split <;> split <;> norm_num [min_le_iff]

lemma sliderUpdate_fields (s : MidiSlider) (raw : ℤ) :
    ∃ sm : ℚ, (sliderUpdate s raw).smoothedValue = sm ∧
      sm = getSmoothingFactor (65536 - (raw : ℚ)) |65536 - (raw : ℚ) - s.lastValue| *
            (65536 - (raw : ℚ)) +
          (1 - getSmoothingFactor (65536 - (raw : ℚ)) |65536 - (raw : ℚ) - s.lastValue|) *
            s.smoothedValue ∧
      ((sliderUpdate s raw).ccValue = pyInt (sm / 512) ∨
        (sliderUpdate s raw).ccValue = s.ccValue) := by
  unfold sliderUpdate
  dsimp only
  split
  · exact ⟨_, rfl, rfl, Or.inl rfl⟩
  · exact ⟨_, rfl, rfl, Or.inr rfl⟩

lemma pyInt_div512_bounds (sm : ℚ) (h0 : 0 ≤ sm) (h1 : sm < 65536) :
    0 ≤ pyInt (sm / 512) ∧ pyInt (sm / 512) ≤ 127 := by
  have hq0 : 0 ≤ sm / 512 := by positivity
  unfold pyInt
  rw [if_pos hq0]
  refine ⟨Int.floor_nonneg.mpr hq0, ?_⟩
  have h2 : ⌊sm / 512⌋ < 128 := by
    rw [Int.floor_lt]
    rw [div_lt_iff₀ (by norm_num : (0:ℚ) < 512)]
    push_cast
    linarith
  omega

lemma sliderUpdate_inv (s : MidiSlider) (raw : ℤ)
    (hraw : 0 ≤ raw ∧ raw ≤ 65535) (hs : SliderInv s) :
    SliderInv (sliderUpdate s raw) := by
  obtain ⟨h0, h1, h2, h3⟩ := hs
  obtain ⟨sm, hsm, hsmdef, hcc⟩ := sliderUpdate_fields s raw
  have hcv1 : (1 : ℚ) ≤ 65536 - (raw : ℚ) := by
    have : (raw : ℚ) ≤ 65535 := by exact_mod_cast hraw.2
    linarith
  have hcv2 : (65536 : ℚ) - (raw : ℚ) ≤ 65536 := by
    have : (0 : ℚ) ≤ (raw : ℚ) := by exact_mod_cast hraw.1
    linarith
  have hf0 := getSmoothingFactor_pos (65536 - (raw : ℚ)) |65536 - (raw : ℚ) - s.lastValue|
  have hf1 := getSmoothingFactor_le (65536 - (raw : ℚ)) |65536 - (raw : ℚ) - s.lastValue|
  set f := getSmoothingFactor (65536 - (raw : ℚ)) |65536 - (raw : ℚ) - s.lastValue| with hfdef
  have hsm0 : 0 ≤ sm := by
    rw [hsmdef]
    have a1 : 0 ≤ f * (65536 - (raw : ℚ)) := mul_nonneg hf0.le (by linarith)
    have a2 : 0 ≤ (1 - f) * s.smoothedValue := mul_nonneg (by linarith) h0
    linarith
  have hsm1 : sm < 65536 := by
    rw [hsmdef]
    have a1 : f * (65536 - (raw : ℚ)) ≤ f * 65536 :=
      mul_le_mul_of_nonneg_left hcv2 hf0.le
    have a2 : (1 - f) * s.smoothedValue < (1 - f) * 65536 :=
      mul_lt_mul_of_pos_left h1 (by linarith)
    nlinarith
  refine ⟨hsm ▸ hsm0, hsm ▸ hsm1, ?_⟩
  rcases hcc with hcc | hcc
  · rw [hcc]
    exact pyInt_div512_bounds sm hsm0 hsm1
  · rw [hcc]
    exact ⟨h2, h3⟩

lemma sliderRun_inv (raws : List ℤ) (s : MidiSlider) (hs : SliderInv s)
    (hraws : ∀ r ∈ raws, 0 ≤ r ∧ r ≤ 65535) : SliderInv (sliderRun s raws) := by
  induction raws generalizing s with
  | nil => exact hs
  | cons r rest ih =>
    have h1 : SliderInv (sliderUpdate s r) :=
      sliderUpdate_inv s r (hraws r (by simp)) hs
    exact ih (sliderUpdate s r) h1 (fun x hx => hraws x (by simp [hx]))

/-- C1: for every sequence of raw analog samples, each in `[0, 65535]`,
after every call to `MidiSlider.update` (equivalently, after running any
prefix of the sample sequence from the initial slider state) the
slider's `cc_value` — the truncation `int(smoothed_value / 512)` of the
exponentially smoothed inverted sample `65536 - raw` — lies in
`[0, 127]`. -/
theorem C1_cc_value_in_range (raws : List ℤ) (hraws : ∀ r ∈ raws, 0 ≤ r ∧ r ≤ 65535) :
    0 ≤ (sliderRun initMidiSlider raws).ccValue ∧
      (sliderRun initMidiSlider raws).ccValue ≤ 127 := by
  have h := sliderRun_inv raws initMidiSlider (by refine ⟨?_, ?_, ?_, ?_⟩ <;> norm_num [initMidiSlider]) hraws
  exact ⟨h.2.2.1, h.2.2.2⟩

/-- Witness for C1 at the concrete sample sequence `[65535, 0, 30000]`. -/
theorem C1_cc_value_in_range_witness :
    0 ≤ (sliderRun initMidiSlider [65535, 0, 30000]).ccValue ∧
      (sliderRun initMidiSlider [65535, 0, 30000]).ccValue ≤ 127 :=
  C1_cc_value_in_range [65535, 0, 30000] (by decide)

/-! ## Claim C5: jump mode bypasses the gate entirely -/

/-- C5: with `jump_mode_enabled` true, `should_send_cc` authorizes for
every slider state and every ledger value, without touching the
slider's crossing state — in particular also when
`|cc_value - last_cc_sent| < CC_THRESHOLD`. -/
theorem C5_jump_mode_bypass (lastCcSent : ℤ) (slider : MidiSlider) :
    shouldSendCC true lastCcSent slider = (slider, true) := rfl

/-! ## Claim C4: the edge-snap rule at `last_cc_sent = 0` -/

/-- C4 counterexample: the claim asserts the gate authorizes for
`last_cc_sent = 0`, `cc_value = 1` even when the crossing value is still
unset, but the first-time initialization branch runs before the
edge-value special case, so the call is denied. -/
theorem C4_counterexample :
    ({ initMidiSlider with ccValue := 1 } : MidiSlider).crossingCcValue = -1 ∧
    (shouldSendCC false 0 { initMidiSlider with ccValue := 1 }).2 = false := by
  decide

/-- C4 amended: with jump mode off, `last_cc_sent = 0` and incoming
`cc_value = 1`, the gate authorizes immediately regardless of crossing
history, provided the slider's crossing value has already been set
(is not the unset sentinel `-1`); with the crossing value unset the call
is denied by the first-time initialization branch. -/
theorem C4_edge_snap (slider : MidiSlider) (hc : slider.crossingCcValue ≠ -1)
    (hv : slider.ccValue = 1) : (shouldSendCC false 0 slider).2 = true := by
  unfold shouldSendCC
  rw [if_neg (by simp), if_neg hc,
    if_pos (show (0:ℤ) = cfg.MIN_CC_VALUE ∧ cfg.MIN_CC_VALUE ≤ slider.ccValue ∧
        slider.ccValue ≤ 2 by norm_num [cfg.MIN_CC_VALUE, hv])]

/-- Witness for C4 (amended) at a slider with crossing value 40. -/
theorem C4_edge_snap_witness :
    (shouldSendCC false 0
      { initMidiSlider with ccValue := 1, crossingCcValue := 40 }).2 = true :=
  C4_edge_snap _ (by decide) rfl

/-! ## Claim C2: pickup-mode crossing from below at `last_cc_sent = 64`

The source detects a crossing only on `cc_value > last_cc_sent`
(strict), and a `cc_value` equal to `last_cc_sent` falls in the
deadband `|cc_value - last_cc_sent| < CC_THRESHOLD = 2`, so the gate
denies a call with `cc_value = 64` and authorizes at the first call
whose value is strictly greater than 64. -/

/-- C2 counterexample: from the initial state (crossing unset,
`last_cc_sent = 64`), the run 40, 50, 64, 70 yields deny, deny, deny,
authorize: the first call with `cc_value ≥ 64` (the 64) is denied,
contradicting the claim that the gate authorizes exactly at the first
call with `cc_value ≥ 64`. -/
theorem C2_counterexample :
    gateRunOutputs false 64 initMidiSlider [40, 50, 64, 70] =
      [false, false, false, true] := by decide

lemma shouldSendCC_64_notCrossed (s : MidiSlider) (hc : s.crossingCcValue ≠ -1)
    (hs : s.hasCrossedLastCcValue = false) :
    shouldSendCC false 64 s =
      if (s.ccValue < 64 ∧ 64 < s.crossingCcValue) ∨
          (64 < s.ccValue ∧ s.crossingCcValue < 64) then
        ({ s with hasCrossedLastCcValue := true }, true)
      else if |s.ccValue - 64| < 2 then (s, false)
      else ({ s with crossingCcValue := s.ccValue }, false) := by
  unfold shouldSendCC
  rw [if_neg (by simp), if_neg hc,
    if_neg (show ¬((64:ℤ) = cfg.MIN_CC_VALUE ∧ _ ∧ _) by norm_num [cfg.MIN_CC_VALUE]),
    if_neg (show ¬((64:ℤ) = cfg.MAX_CC_VALUE ∧ _ ∧ _) by norm_num [cfg.MAX_CC_VALUE]),
    if_neg (by simp [hs])]
  rfl

lemma gateRunOutputs_crossed (vs : List ℤ) (s : MidiSlider)
    (hs : s.hasCrossedLastCcValue = true) (hc : 0 ≤ s.crossingCcValue) :
    gateRunOutputs false 64 s vs = vs.map (fun _ => true) := by
  induction vs generalizing s with
  | nil => rfl
  | cons v vs ih =>
    have hstep : shouldSendCC false 64 { s with ccValue := v } =
        ({ s with ccValue := v }, true) := by
      unfold shouldSendCC
      rw [if_neg (by simp), if_neg (by simp; omega),
        if_neg (show ¬((64:ℤ) = cfg.MIN_CC_VALUE ∧ _ ∧ _) by norm_num [cfg.MIN_CC_VALUE]),
        if_neg (show ¬((64:ℤ) = cfg.MAX_CC_VALUE ∧ _ ∧ _) by norm_num [cfg.MAX_CC_VALUE]),
        if_pos (by simp [hs])]
    simp only [gateRunOutputs, hstep, List.map_cons]
    exact congrArg _ (ih { s with ccValue := v } (by simp [hs]) (by simpa))

lemma gateRunOutputs_seeking (vs : List ℤ) (s : MidiSlider)
    (hs : s.hasCrossedLastCcValue = false) (h0 : 0 ≤ s.crossingCcValue)
    (h64 : s.crossingCcValue < 64)
    (hchain : vs.Chain' (· < ·)) (hbound : ∀ v ∈ vs, 0 ≤ v ∧ v ≤ 127) :
    gateRunOutputs false 64 s vs = vs.map (fun v => decide (64 < v)) := by
  induction vs generalizing s with
  | nil => rfl
  | cons v vs ih =>
    obtain ⟨hv0, hv127⟩ := hbound v (by simp)
    have hbound' : ∀ w ∈ vs, 0 ≤ w ∧ w ≤ 127 := fun w hw => hbound w (by simp [hw])
    have hchain' : vs.Chain' (· < ·) := (List.chain'_cons'.mp hchain).2
    have hbase := shouldSendCC_64_notCrossed { s with ccValue := v } (by simp; omega) (by simp [hs])
    simp only [gateRunOutputs, List.map_cons]
    by_cases hv : 64 < v
    · rw [hbase, if_pos (by simp; omega)]
      have htail : vs.map (fun w => decide (64 < w)) = vs.map (fun _ => true) := by
        refine List.map_congr_left (fun w hw => ?_)
        have hvw : v < w :=
          (List.pairwise_cons.mp (List.chain'_iff_pairwise.mp hchain)).1 w hw
        simp
        omega
      rw [htail, decide_eq_true hv]
      exact congrArg _ (gateRunOutputs_crossed vs _ (by simp) (by simp; omega))
    · rw [hbase, if_neg (by simp; omega)]
      by_cases hdb : |v - 64| < 2
      · rw [if_pos (by simpa using hdb)]
        rw [show decide (64 < v) = false by simpa using hv]
        exact congrArg _ (ih { s with ccValue := v } (by simp [hs]) (by simpa) (by simpa)
          hchain' hbound')
      · rw [if_neg (by simpa using hdb)]
        rw [show decide (64 < v) = false by simpa using hv]
        refine congrArg _ (ih _ (by simp [hs]) (by simp; omega) ?_ hchain' hbound')
        have : v ≤ 62 := by
          rw [abs_sub_lt_iff] at hdb
          omega
        simp
        omega

/-- C2 amended: with jump mode off, `last_cc_sent = 64` and the crossing
value unset, the first call with `cc_value = 40` denies and sets the
crossing baseline to 40; after that, any sequence of strictly increasing
CC values (each in `[0,127]`) is authorized exactly at the calls whose
`cc_value` is strictly greater than 64 — in particular a call with
`cc_value` exactly 64 is still denied (it falls inside the
`CC_THRESHOLD` deadband), so authorization starts at the first value
`≥ 65`, not at the first value `≥ 64` as the claim states. -/
theorem C2_pickup_crossing (vs : List ℤ) (hchain : vs.Chain' (· < ·))
    (hbound : ∀ v ∈ vs, 0 ≤ v ∧ v ≤ 127) :
    shouldSendCC false 64 { initMidiSlider with ccValue := 40 } =
      ({ initMidiSlider with ccValue := 40, crossingCcValue := 40 }, false) ∧
    gateRunOutputs false 64 { initMidiSlider with ccValue := 40, crossingCcValue := 40 } vs =
      vs.map (fun v => decide (64 < v)) :=
  ⟨by decide, gateRunOutputs_seeking vs _ rfl (by decide) (by decide) hchain hbound⟩

/-- Witness for C2 (amended) at the concrete follow-up sequence
50, 64, 70: deny, deny, authorize. -/
theorem C2_pickup_crossing_witness :
    gateRunOutputs false 64 { initMidiSlider with ccValue := 40, crossingCcValue := 40 }
      [50, 64, 70] = [50, 64, 70].map (fun v => decide (64 < v)) :=
  (C2_pickup_crossing [50, 64, 70]
    (by norm_num [List.chain'_cons, List.chain'_singleton]) (by decide)).2

/-! ## Claims C6 and C10: the last-sent-CC ledger

For a fixed CC number `n`, the per-call and whole-run lemmas below track
two facts at once: the emitted values for `n`, prefixed by the ledger's
entry for `n`, form a chain of pairwise-distinct adjacent values, and
after the run the ledger's entry for `n` is the last value of that
chain. -/

lemma getD_set_self (l : List ℤ) (i : ℕ) (v : ℤ) (h : i < l.length) :
    (l.set i v).getD i 0 = v := by
  rw [List.getD_eq_getElem _ _ (by simpa using h)]
  simp [List.getElem_set]

lemma getD_set_ne (l : List ℤ) (i j : ℕ) (v : ℤ) (h : j ≠ i) :
    (l.set i v).getD j 0 = l.getD j 0 := by
  rcases lt_or_le j l.length with hj | hj
  · rw [List.getD_eq_getElem _ _ (by simpa using hj), List.getD_eq_getElem _ _ hj]
    rw [List.getElem_set, if_neg (fun hh => h hh.symm)]
  · rw [List.getD_eq_default _ _ (by simpa using hj), List.getD_eq_default _ _ hj]

lemma sendCC_length (ccList : List ℤ) (l : List ℤ) (v : ℤ) :
    (sendCC l ccList v).1.length = l.length := by
  induction ccList generalizing l with
  | nil => rfl
  | cons m rest ih =>
    by_cases hch : hasCcValueChanged l m v
    · simp only [sendCC, if_pos hch]
      rw [ih]
      simp
    · simp only [sendCC, if_neg hch]
      exact ih l

lemma getLastD_append_eq {α : Type} (l₁ l₂ : List α) (x : α) :
    (l₁ ++ l₂).getLastD x = l₂.getLastD (l₁.getLastD x) := by
  induction l₁ generalizing x with
  | nil => rfl
  | cons a l ih => simp only [List.cons_append, List.getLastD_cons, ih]

lemma chain'_append_of_getLastD {α : Type} {R : α → α → Prop} (l₁ : List α) :
    ∀ (x : α) (l₂ : List α), List.Chain' R (x :: l₁) →
      List.Chain' R (l₁.getLastD x :: l₂) → List.Chain' R (x :: (l₁ ++ l₂)) := by
  induction l₁ with
  | nil => intro x l₂ _ h2; exact h2
  | cons a l ih =>
    intro x l₂ h1 h2
    rw [List.getLastD_cons] at h2
    rw [List.cons_append]
    rw [List.chain'_cons] at h1 ⊢
    exact ⟨h1.1, ih a l₂ h1.2 h2⟩

lemma sendCC_filter_spec (ccList : List ℤ) (l : List ℤ) (v n : ℤ)
    (hcc : ∀ m ∈ ccList, 0 ≤ m) (hn : 0 ≤ n) (hlen : n.toNat < l.length) :
    List.Chain' (· ≠ ·)
      (l.getD n.toNat 0 ::
        ((sendCC l ccList v).2.filter (fun msg => msg.1 = n)).map Prod.snd) ∧
    (sendCC l ccList v).1.getD n.toNat 0 =
      (((sendCC l ccList v).2.filter (fun msg => msg.1 = n)).map Prod.snd).getLastD
        (l.getD n.toNat 0) := by
  induction ccList generalizing l with
  | nil => exact ⟨List.chain'_singleton _, rfl⟩
  | cons m rest ih =>
    have hm : 0 ≤ m := hcc m (by simp)
    have hrest : ∀ x ∈ rest, 0 ≤ x := fun x hx => hcc x (by simp [hx])
    by_cases hch : hasCcValueChanged l m v
    · have hch' : v ≠ l.getD m.toNat 0 := hch
      by_cases hmn : m = n
      · subst hmn
        have hset : (l.set m.toNat v).getD m.toNat 0 = v := getD_set_self l m.toNat v hlen
        have IH := ih (l.set m.toNat v) hrest (by simpa using hlen)
        rw [hset] at IH
        simp only [sendCC, if_pos hch, List.filter_cons, decide_eq_true_eq, if_true,
          List.map_cons]
        refine ⟨?_, ?_⟩
        · rw [List.chain'_cons]
          exact ⟨Ne.symm hch', IH.1⟩
        · rw [List.getLastD_cons]
          exact IH.2
      · have htoNat : n.toNat ≠ m.toNat := by omega
        have IH := ih (l.set m.toNat v) hrest (by simpa using hlen)
        rw [getD_set_ne l m.toNat n.toNat v htoNat] at IH
        simp only [sendCC, if_pos hch, List.filter_cons, decide_eq_true_eq, if_neg hmn]
        exact IH
    · simp only [sendCC, if_neg hch]
      exact ih l hrest hlen

lemma runSendCC_filter_spec (calls : List (List ℤ × ℤ)) (l : List ℤ) (n : ℤ)
    (hcalls : ∀ call ∈ calls, ∀ m ∈ call.1, 0 ≤ m) (hn : 0 ≤ n)
    (hlen : n.toNat < l.length) :
    List.Chain' (· ≠ ·)
      (l.getD n.toNat 0 ::
        ((runSendCC l calls).2.filter (fun msg => msg.1 = n)).map Prod.snd) ∧
    (runSendCC l calls).1.getD n.toNat 0 =
      (((runSendCC l calls).2.filter (fun msg => msg.1 = n)).map Prod.snd).getLastD
        (l.getD n.toNat 0) := by
  induction calls generalizing l with
  | nil => exact ⟨List.chain'_singleton _, rfl⟩
  | cons call rest ih =>
    obtain ⟨ccList, v⟩ := call
    have hcall : ∀ m ∈ ccList, 0 ≤ m := hcalls (ccList, v) (by simp)
    have hrest : ∀ c ∈ rest, ∀ m ∈ c.1, 0 ≤ m := fun c hc => hcalls c (by simp [hc])
    have H1 := sendCC_filter_spec ccList l v n hcall hn hlen
    have H2 := ih (sendCC l ccList v).1 hrest (by rw [sendCC_length]; exact hlen)
    rw [H1.2] at H2
    simp only [runSendCC, List.filter_append, List.map_append]
    refine ⟨chain'_append_of_getLastD _ _ _ H1.1 H2.1, ?_⟩
    rw [getLastD_append_eq]
    exact H2.2

/-- C6: over any sequence of `send_cc` calls starting from the initial
ledger, for each CC number `n` the stream of `ControlChange` messages
handed to the transports, restricted to `n` and prefixed by the ledger's
initial entry for `n`, has pairwise-distinct adjacent values — a message
for `n` is emitted only when its value differs from the ledger's
last-sent value for `n` — and after the run the ledger holds the last
emitted value for `n` (the initial entry when none was emitted). -/
theorem C6_transport_dedup (calls : List (List ℤ × ℤ)) (n : ℤ)
    (hn : 0 ≤ n) (hn127 : n ≤ 127)
    (hcalls : ∀ call ∈ calls, ∀ m ∈ call.1, 0 ≤ m) :
    List.Chain' (· ≠ ·)
      (getLastCcValueSent initLastCcValuesSent n ::
        ((runSendCC initLastCcValuesSent calls).2.filter (fun msg => msg.1 = n)).map
          Prod.snd) ∧
    getLastCcValueSent (runSendCC initLastCcValuesSent calls).1 n =
      (((runSendCC initLastCcValuesSent calls).2.filter (fun msg => msg.1 = n)).map
        Prod.snd).getLastD (getLastCcValueSent initLastCcValuesSent n) :=
  runSendCC_filter_spec calls initLastCcValuesSent n hcalls hn
    (show n.toNat < initLastCcValuesSent.length by
      have h : initLastCcValuesSent.length = 128 := rfl
      omega)

/-- Witness for C6: two calls repeating value 30 on CC 5 (the second is
deduplicated) followed by value 40. -/
theorem C6_transport_dedup_witness :
    List.Chain' (· ≠ ·)
      (getLastCcValueSent initLastCcValuesSent 5 ::
        ((runSendCC initLastCcValuesSent
          [([5], 30), ([5, 5], 30), ([5], 40)]).2.filter (fun msg => msg.1 = 5)).map
          Prod.snd) ∧
    getLastCcValueSent (runSendCC initLastCcValuesSent
        [([5], 30), ([5, 5], 30), ([5], 40)]).1 5 =
      (((runSendCC initLastCcValuesSent
        [([5], 30), ([5, 5], 30), ([5], 40)]).2.filter (fun msg => msg.1 = 5)).map
        Prod.snd).getLastD (getLastCcValueSent initLastCcValuesSent 5) :=
  C6_transport_dedup [([5], 30), ([5, 5], 30), ([5], 40)] 5 (by norm_num) (by norm_num)
    (by decide)

/-- C10: for every CC number `n` in `[0,127]`, the last-sent-CC ledger is
initialized to 16 (not 0): `get_last_cc_value_sent(n)` returns 16 on the
fresh ledger, and still returns 16 after any sequence of `send_cc` calls
that emitted no message for `n`. -/
theorem C10_ledger_initialized_to_16 (n : ℤ) (h0 : 0 ≤ n) (h127 : n ≤ 127) :
    getLastCcValueSent initLastCcValuesSent n = 16 ∧
    ∀ calls : List (List ℤ × ℤ), (∀ call ∈ calls, ∀ m ∈ call.1, 0 ≤ m) →
      (runSendCC initLastCcValuesSent calls).2.filter (fun msg => msg.1 = n) = [] →
      getLastCcValueSent (runSendCC initLastCcValuesSent calls).1 n = 16 := by
  have hlen : n.toNat < initLastCcValuesSent.length := by
    have h : initLastCcValuesSent.length = 128 := rfl
    omega
  have hinit : getLastCcValueSent initLastCcValuesSent n = 16 := by
    unfold getLastCcValueSent
    rw [List.getD_eq_getElem _ _ hlen]
    exact List.getElem_replicate ..
  refine ⟨hinit, fun calls hcalls hempty => ?_⟩
  have h := (runSendCC_filter_spec calls initLastCcValuesSent n hcalls h0 hlen).2
  rw [hempty] at h
  simp only [List.map_nil, List.getLastD_nil] at h
  exact h.trans hinit

/-- Witness for C10 at CC number 7, with one call that only touches CC 3. -/
theorem C10_ledger_initialized_to_16_witness :
    getLastCcValueSent initLastCcValuesSent 7 = 16 ∧
    getLastCcValueSent (runSendCC initLastCcValuesSent [([3], 99)]).1 7 = 16 :=
  ⟨(C10_ledger_initialized_to_16 7 (by norm_num) (by norm_num)).1,
    (C10_ledger_initialized_to_16 7 (by norm_num) (by norm_num)).2 [([3], 99)]
      (by decide) (by decide)⟩

/-! ## Controller bookkeeping lemmas

Projection lemmas tracking which fields each controller method leaves
untouched, used to trace `process_inputs` / `handle_lock_changes`. -/

@[simp] lemma updateHeldButtonIndicies_currentBankGroupIdx (c : MidiController) :
    (updateHeldButtonIndicies c).currentBankGroupIdx = c.currentBankGroupIdx := rfl

@[simp] lemma updateHeldButtonIndicies_currentBankIdx (c : MidiController) :
    (updateHeldButtonIndicies c).currentBankIdx = c.currentBankIdx := rfl

@[simp] lemma updateHeldButtonIndicies_buttons (c : MidiController) :
    (updateHeldButtonIndicies c).buttons = c.buttons := rfl

@[simp] lemma updateHeldButtonIndicies_jumpModeEnabled (c : MidiController) :
    (updateHeldButtonIndicies c).jumpModeEnabled = c.jumpModeEnabled := rfl

@[simp] lemma updateHeldButtonIndicies_lockedBankIdx (c : MidiController) :
    (updateHeldButtonIndicies c).lockedBankIdx = c.lockedBankIdx := rfl

@[simp] lemma updateHeldButtonIndicies_unlockPending (c : MidiController) :
    (updateHeldButtonIndicies c).unlockPending = c.unlockPending := rfl

@[simp] lemma updateSliderCcAssignments_currentBankGroupIdx (g : List (List (List ℤ)))
    (gb : List ℤ) (c : MidiController) :
    (updateSliderCcAssignments g gb c).currentBankGroupIdx = c.currentBankGroupIdx := rfl

@[simp] lemma updateSliderCcAssignments_currentBankIdx (g : List (List (List ℤ)))
    (gb : List ℤ) (c : MidiController) :
    (updateSliderCcAssignments g gb c).currentBankIdx = c.currentBankIdx := rfl

@[simp] lemma updateSliderCcAssignments_buttons (g : List (List (List ℤ)))
    (gb : List ℤ) (c : MidiController) :
    (updateSliderCcAssignments g gb c).buttons = c.buttons := rfl

@[simp] lemma updateSliderCcAssignments_jumpModeEnabled (g : List (List (List ℤ)))
    (gb : List ℤ) (c : MidiController) :
    (updateSliderCcAssignments g gb c).jumpModeEnabled = c.jumpModeEnabled := rfl

@[simp] lemma updateSliderCcAssignments_lockedBankIdx (g : List (List (List ℤ)))
    (gb : List ℤ) (c : MidiController) :
    (updateSliderCcAssignments g gb c).lockedBankIdx = c.lockedBankIdx := rfl

@[simp] lemma updateSliderCcAssignments_unlockPending (g : List (List (List ℤ)))
    (gb : List ℤ) (c : MidiController) :
    (updateSliderCcAssignments g gb c).unlockPending = c.unlockPending := rfl

lemma updateActiveBank_currentBankGroupIdx (g : List (List (List ℤ))) (gb : List ℤ)
    (c : MidiController) :
    (updateActiveBank g gb c).currentBankGroupIdx = c.currentBankGroupIdx := by
  simp [updateActiveBank, apply_ite]

lemma updateActiveBank_buttons (g : List (List (List ℤ))) (gb : List ℤ)
    (c : MidiController) :
    (updateActiveBank g gb c).buttons = c.buttons := by
  simp [updateActiveBank, apply_ite]

lemma updateActiveBank_jumpModeEnabled (g : List (List (List ℤ))) (gb : List ℤ)
    (c : MidiController) :
    (updateActiveBank g gb c).jumpModeEnabled = c.jumpModeEnabled := by
  simp [updateActiveBank, apply_ite]

lemma updateActiveBank_lockedBankIdx (g : List (List (List ℤ))) (gb : List ℤ)
    (c : MidiController) :
    (updateActiveBank g gb c).lockedBankIdx = c.lockedBankIdx := by
  simp [updateActiveBank, apply_ite]

lemma updateActiveBank_unlockPending (g : List (List (List ℤ))) (gb : List ℤ)
    (c : MidiController) :
    (updateActiveBank g gb c).unlockPending = c.unlockPending := by
  simp [updateActiveBank, apply_ite]

lemma updateActiveBank_currentBankIdx (g : List (List (List ℤ))) (gb : List ℤ)
    (c : MidiController) :
    (updateActiveBank g gb c).currentBankIdx =
      if c.lockedBankIdx ≠ -1 then c.lockedBankIdx
      else (updateHeldButtonIndicies c).longestHeldButtonIdx := by
  simp only [updateActiveBank, apply_ite (f := MidiController.currentBankIdx)]
  simp

lemma lockBank_currentBankGroupIdx (g : List (List (List ℤ))) (gb : List ℤ)
    (c : MidiController) (bankIdx : ℕ) :
    (lockBank g gb c bankIdx).currentBankGroupIdx = c.currentBankGroupIdx := by
  unfold lockBank
  rw [updateActiveBank_currentBankGroupIdx]

lemma lockBank_buttons (g : List (List (List ℤ))) (gb : List ℤ)
    (c : MidiController) (bankIdx : ℕ) :
    (lockBank g gb c bankIdx).buttons = c.buttons := by
  unfold lockBank
  rw [updateActiveBank_buttons]

lemma lockBank_jumpModeEnabled (g : List (List (List ℤ))) (gb : List ℤ)
    (c : MidiController) (bankIdx : ℕ) :
    (lockBank g gb c bankIdx).jumpModeEnabled = c.jumpModeEnabled := by
  unfold lockBank
  rw [updateActiveBank_jumpModeEnabled]

lemma lockBank_lockedBankIdx (g : List (List (List ℤ))) (gb : List ℤ)
    (c : MidiController) (bankIdx : ℕ) :
    (lockBank g gb c bankIdx).lockedBankIdx = (bankIdx : ℤ) := by
  unfold lockBank
  rw [updateActiveBank_lockedBankIdx]

lemma lockBank_unlockPending (g : List (List (List ℤ))) (gb : List ℤ)
    (c : MidiController) (bankIdx : ℕ) :
    (lockBank g gb c bankIdx).unlockPending = false := by
  unfold lockBank
  rw [updateActiveBank_unlockPending]

lemma lockBank_currentBankIdx (g : List (List (List ℤ))) (gb : List ℤ)
    (c : MidiController) (bankIdx : ℕ) :
    (lockBank g gb c bankIdx).currentBankIdx = (bankIdx : ℤ) := by
  unfold lockBank
  rw [updateActiveBank_currentBankIdx]
  have h : ((bankIdx : ℤ)) ≠ -1 := by omega
  simp [h]

lemma unlockBank_preserves (g : List (List (List ℤ))) (gb : List ℤ)
    (c : MidiController) :
    (unlockBank g gb c).currentBankGroupIdx = c.currentBankGroupIdx ∧
    (unlockBank g gb c).buttons = c.buttons ∧
    (unlockBank g gb c).jumpModeEnabled = c.jumpModeEnabled := by
  unfold unlockBank
  split
  · exact ⟨updateActiveBank_currentBankGroupIdx .., updateActiveBank_buttons ..,
      updateActiveBank_jumpModeEnabled ..⟩
  · exact ⟨rfl, rfl, rfl⟩

lemma unlockBank_lockedBankIdx (g : List (List (List ℤ))) (gb : List ℤ)
    (c : MidiController) (h : c.lockedBankIdx ≠ -1) :
    (unlockBank g gb c).lockedBankIdx = -1 := by
  unfold unlockBank
  rw [if_pos h, updateActiveBank_lockedBankIdx]

lemma handleLockChanges_preserves (g : List (List (List ℤ))) (gb : List ℤ)
    (c : MidiController) :
    (handleLockChanges g gb c).currentBankGroupIdx = c.currentBankGroupIdx ∧
    (handleLockChanges g gb c).buttons = c.buttons ∧
    (handleLockChanges g gb c).jumpModeEnabled = c.jumpModeEnabled := by
  simp only [handleLockChanges]
  split <;> split <;> split <;>
    first
      | exact ⟨rfl, rfl, rfl⟩
      | exact unlockBank_preserves ..
      | exact ⟨lockBank_currentBankGroupIdx .., lockBank_buttons ..,
          lockBank_jumpModeEnabled ..⟩

lemma nextBankGroup_proj (c : MidiController) :
    (nextBankGroup c).currentBankGroupIdx =
      (if c.currentBankGroupIdx + 1 ≤ 3 then c.currentBankGroupIdx + 1
        else c.currentBankGroupIdx) ∧
    (nextBankGroup c).buttons = c.buttons ∧
    (nextBankGroup c).jumpModeEnabled = c.jumpModeEnabled ∧
    (nextBankGroup c).hasAnythingChanged = c.hasAnythingChanged := by
  by_cases h : c.currentBankGroupIdx + 1 ≤ 3 <;> simp [nextBankGroup, h]

lemma previousBankGroup_proj (c : MidiController) :
    (previousBankGroup c).currentBankGroupIdx =
      (if 0 ≤ c.currentBankGroupIdx - 1 then c.currentBankGroupIdx - 1
        else c.currentBankGroupIdx) ∧
    (previousBankGroup c).buttons = c.buttons ∧
    (previousBankGroup c).jumpModeEnabled = c.jumpModeEnabled := by
  by_cases h : (0 : ℤ) ≤ c.currentBankGroupIdx - 1 <;> simp [previousBankGroup, h]

lemma sendCcMessages_proj (c : MidiController) :
    (sendCcMessages c).currentBankGroupIdx = c.currentBankGroupIdx ∧
    (sendCcMessages c).buttons = c.buttons ∧
    (sendCcMessages c).jumpModeEnabled = c.jumpModeEnabled :=
  ⟨rfl, rfl, rfl⟩

lemma nextBankGroupGesture_congr {c c' : MidiController} (h : c'.buttons = c.buttons) :
    nextBankGroupGesture c' ↔ nextBankGroupGesture c := by
  unfold nextBankGroupGesture topButton bottomButton
  rw [h]

lemma previousBankGroupGesture_congr {c c' : MidiController} (h : c'.buttons = c.buttons) :
    previousBankGroupGesture c' ↔ previousBankGroupGesture c := by
  unfold previousBankGroupGesture topButton bottomButton
  rw [h]

lemma processInputs_nochange (g : List (List (List ℤ))) (gb : List ℤ)
    (c : MidiController) (hch : c.hasAnythingChanged = false) :
    processInputs g gb c = c := by
  unfold processInputs
  rw [if_pos (by simp [hch])]

lemma processInputs_nextGesture (g : List (List (List ℤ))) (gb : List ℤ)
    (c : MidiController) (hch : c.hasAnythingChanged = true)
    (hg : nextBankGroupGesture c) :
    processInputs g gb c = unlockBank g gb (nextBankGroup (handleLockChanges g gb c)) := by
  have hb := (handleLockChanges_preserves g gb c).2.1
  simp only [processInputs]
  rw [if_neg (by simp [hch]), if_pos ((nextBankGroupGesture_congr hb).mpr hg)]

lemma processInputs_previousGesture (g : List (List (List ℤ))) (gb : List ℤ)
    (c : MidiController) (hch : c.hasAnythingChanged = true)
    (hnot : ¬ nextBankGroupGesture c) (hg : previousBankGroupGesture c) :
    processInputs g gb c =
      unlockBank g gb (previousBankGroup (handleLockChanges g gb c)) := by
  have hb := (handleLockChanges_preserves g gb c).2.1
  simp only [processInputs]
  rw [if_neg (by simp [hch]),
    if_neg (fun hg' => hnot ((nextBankGroupGesture_congr hb).mp hg')),
    if_pos ((previousBankGroupGesture_congr hb).mpr hg)]

/-! ## Claim C7: bank-group index clamped to [0,3] -/

/-- C7: `current_bank_group_idx` stays inside `[0,3]` with clamping and
no wraparound: `next_bank_group` / `previous_bank_group` preserve the
range; the bottom-held/top-released-without-long-hold gesture at bank
group 0 moves it to 1; the same gesture at bank group 3 leaves it at 3;
and the symmetric previous-group gesture at 0 leaves it at 0. -/
theorem C7_bank_group_clamped :
    (∀ c : MidiController, 0 ≤ c.currentBankGroupIdx → c.currentBankGroupIdx ≤ 3 →
      0 ≤ (nextBankGroup c).currentBankGroupIdx ∧
      (nextBankGroup c).currentBankGroupIdx ≤ 3 ∧
      0 ≤ (previousBankGroup c).currentBankGroupIdx ∧
      (previousBankGroup c).currentBankGroupIdx ≤ 3) ∧
    (∀ (g : List (List (List ℤ))) (gb : List ℤ) (c : MidiController),
      c.hasAnythingChanged = true → nextBankGroupGesture c →
      c.currentBankGroupIdx = 0 → (processInputs g gb c).currentBankGroupIdx = 1) ∧
    (∀ (g : List (List (List ℤ))) (gb : List ℤ) (c : MidiController),
      c.hasAnythingChanged = true → nextBankGroupGesture c →
      c.currentBankGroupIdx = 3 → (processInputs g gb c).currentBankGroupIdx = 3) ∧
    (∀ (g : List (List (List ℤ))) (gb : List ℤ) (c : MidiController),
      c.hasAnythingChanged = true → ¬ nextBankGroupGesture c →
      previousBankGroupGesture c →
      c.currentBankGroupIdx = 0 → (processInputs g gb c).currentBankGroupIdx = 0) := by
  refine ⟨?_, ?_, ?_, ?_⟩
  · intro c h0 h3
    rw [(nextBankGroup_proj c).1, (previousBankGroup_proj c).1]
    refine ⟨?_, ?_, ?_, ?_⟩ <;> split <;> omega
  · intro g gb c hch hg h0
    rw [processInputs_nextGesture g gb c hch hg,
      (unlockBank_preserves ..).1, (nextBankGroup_proj _).1,
      (handleLockChanges_preserves ..).1, h0]
    norm_num
  · intro g gb c hch hg h3
    rw [processInputs_nextGesture g gb c hch hg,
      (unlockBank_preserves ..).1, (nextBankGroup_proj _).1,
      (handleLockChanges_preserves ..).1, h3]
    norm_num
  · intro g gb c hch hnot hg h0
    rw [processInputs_previousGesture g gb c hch hnot hg,
      (unlockBank_preserves ..).1, (previousBankGroup_proj _).1,
      (handleLockChanges_preserves ..).1, h0]
    norm_num

/-- Witness for C7 at concrete gesture states: bank group 0 advances to
1, bank group 3 stays at 3, and the previous-group gesture at 0 stays
at 0. -/
theorem C7_bank_group_clamped_witness :
    (0 ≤ (nextBankGroup initMidiController).currentBankGroupIdx ∧
      (nextBankGroup initMidiController).currentBankGroupIdx ≤ 3 ∧
      0 ≤ (previousBankGroup initMidiController).currentBankGroupIdx ∧
      (previousBankGroup initMidiController).currentBankGroupIdx ≤ 3) ∧
    (processInputs defaultCcBankGroups defaultGlobalCcBank
      (cNextGestureAt 0)).currentBankGroupIdx = 1 ∧
    (processInputs defaultCcBankGroups defaultGlobalCcBank
      (cNextGestureAt 3)).currentBankGroupIdx = 3 ∧
    (processInputs defaultCcBankGroups defaultGlobalCcBank
      cPrevGestureAt0).currentBankGroupIdx = 0 :=
  ⟨C7_bank_group_clamped.1 initMidiController (by decide) (by decide),
   C7_bank_group_clamped.2.1 defaultCcBankGroups defaultGlobalCcBank
     (cNextGestureAt 0) rfl (by decide) rfl,
   C7_bank_group_clamped.2.2.1 defaultCcBankGroups defaultGlobalCcBank
     (cNextGestureAt 3) rfl (by decide) rfl,
   C7_bank_group_clamped.2.2.2 defaultCcBankGroups defaultGlobalCcBank
     cPrevGestureAt0 rfl (by decide) (by decide) rfl⟩

/-! ## Claim C8: bank-group navigation precedes the jump-mode toggle -/

/-- C8: in any cycle where both middle buttons are held, the top button
just released without long-hold, and the bottom button's hold time is
nonzero, `process_inputs` advances the bank group and leaves
`jump_mode_enabled` unchanged; and whenever either bank-group-navigation
gesture holds, `jump_mode_enabled` is unchanged — the jump-mode toggle
can only fire in cycles where neither navigation condition holds. -/
theorem C8_nav_precedes_jump_toggle (g : List (List (List ℤ))) (gb : List ℤ)
    (c : MidiController) :
    (c.hasAnythingChanged = true →
      (middleButtonT c).holdTime > 0 → (middleButtonB c).holdTime > 0 →
      (topButton c).detectedNewRelease = true → (topButton c).wasLongHeld = false →
      (bottomButton c).holdTime > 0 →
      (processInputs g gb c).currentBankGroupIdx =
        (nextBankGroup c).currentBankGroupIdx ∧
      (processInputs g gb c).jumpModeEnabled = c.jumpModeEnabled) ∧
    ((nextBankGroupGesture c ∨ previousBankGroupGesture c) →
      (processInputs g gb c).jumpModeEnabled = c.jumpModeEnabled) := by
  have hjump_next : nextBankGroupGesture c → c.hasAnythingChanged = true →
      (processInputs g gb c).currentBankGroupIdx =
        (nextBankGroup c).currentBankGroupIdx ∧
      (processInputs g gb c).jumpModeEnabled = c.jumpModeEnabled := by
    intro hg hch
    rw [processInputs_nextGesture g gb c hch hg]
    constructor
    · rw [(unlockBank_preserves ..).1, (nextBankGroup_proj _).1,
        (handleLockChanges_preserves ..).1, (nextBankGroup_proj c).1]
    · rw [(unlockBank_preserves ..).2.2, (nextBankGroup_proj _).2.2.1,
        (handleLockChanges_preserves ..).2.2]
  refine ⟨?_, ?_⟩
  · intro hch hmT hmB htr htl hbh
    exact hjump_next ⟨hbh, htr, htl⟩ hch
  · intro hor
    by_cases hch : c.hasAnythingChanged = true
    · by_cases hnext : nextBankGroupGesture c
      · exact (hjump_next hnext hch).2
      · have hprev : previousBankGroupGesture c := hor.resolve_left hnext
        rw [processInputs_previousGesture g gb c hch hnext hprev]
        rw [(unlockBank_preserves ..).2.2, (previousBankGroup_proj _).2.2,
          (handleLockChanges_preserves ..).2.2]
    · have hch' : c.hasAnythingChanged = false := by
        cases h : c.hasAnythingChanged
        · rfl
        · exact absurd h hch
      rw [processInputs_nochange g gb c hch']

/-- Witness for C8 at a state satisfying both the navigation gesture and
the jump-toggle gesture: the bank group advances and jump mode stays
off. -/
theorem C8_nav_precedes_jump_toggle_witness :
    ((processInputs defaultCcBankGroups defaultGlobalCcBank
        cNavAndJumpGesture).currentBankGroupIdx =
      (nextBankGroup cNavAndJumpGesture).currentBankGroupIdx ∧
    (processInputs defaultCcBankGroups defaultGlobalCcBank
        cNavAndJumpGesture).jumpModeEnabled = cNavAndJumpGesture.jumpModeEnabled) ∧
    (processInputs defaultCcBankGroups defaultGlobalCcBank
        cNavAndJumpGesture).jumpModeEnabled = cNavAndJumpGesture.jumpModeEnabled :=
  ⟨(C8_nav_precedes_jump_toggle defaultCcBankGroups defaultGlobalCcBank
      cNavAndJumpGesture).1 rfl (by decide) (by decide) (by decide) (by decide)
      (by decide),
   (C8_nav_precedes_jump_toggle defaultCcBankGroups defaultGlobalCcBank
      cNavAndJumpGesture).2 (Or.inl (by decide))⟩

/-! ## Claim C3: secondary CC layering for held banks -/

lemma heldButtonStep_fst (acc : List ℕ × ℚ × ℤ) (ib : ℕ × BankButton) :
    (heldButtonStep acc ib).1 = if ib.2.pressed then acc.1 ++ [ib.1] else acc.1 := by
  cases hp : ib.2.pressed <;> simp [heldButtonStep, hp, apply_ite]

lemma foldl_heldButtonStep_fst (l : List (ℕ × BankButton)) :
    ∀ acc : List ℕ × ℚ × ℤ, (l.foldl heldButtonStep acc).1 =
      acc.1 ++ (l.filter (fun p => p.2.pressed)).map Prod.fst := by
  induction l with
  | nil => intro acc; simp
  | cons p l ih =>
    intro acc
    rw [List.foldl_cons, ih, List.filter_cons]
    cases hp : p.2.pressed
    · simp [heldButtonStep_fst, hp]
    · simp [heldButtonStep_fst, hp]

lemma updateHeldButtonIndicies_additional (c : MidiController) :
    (updateHeldButtonIndicies c).additionalBankIndicies =
      (c.buttons.enum.filter (fun p => p.2.pressed)).map Prod.fst := by
  show (c.buttons.enum.foldl heldButtonStep ([], 0, -1)).1 = _
  rw [foldl_heldButtonStep_fst]
  simp

lemma updateSliderCcAssignments_additional (g : List (List (List ℤ))) (gb : List ℤ)
    (c : MidiController) (idx : ℕ) (hidx : idx < c.sliders.length)
    (hbank : c.currentBankIdx ≠ -1) (hadd : c.additionalBankIndicies ≠ []) :
    ((updateSliderCcAssignments g gb c).sliders.getD idx
        initMidiSlider).additionalAssignedCcNumbers =
      getAdditionalCcNumbers g c idx := by
  unfold updateSliderCcAssignments
  have hlen : idx < (c.sliders.enum.map (fun (p : ℕ × MidiSlider) => p.2)).length := by
    simpa using hidx
  rw [show ({ c with sliders := c.sliders.enum.map _ } : MidiController).sliders =
    c.sliders.enum.map _ from rfl]
  rw [List.getD_eq_getElem _ _ (by simpa using hidx), List.getElem_map, List.getElem_enum]
  simp only [if_neg hbank, if_pos hadd]

/-- C3 counterexample: with buttons 1 and 2 held (button 1 longest) at
bank group 0 and no lock, `update_active_bank` makes bank 1 active and
assigns slider 0 the primary CC 8 — and its secondary CC list is
`[8, 12]`, which contains the active bank's own CC number 8, while the
claim says the secondary list consists only of the lookups for the
*other* held banks (here `[12]`). -/
theorem C3_counterexample :
    (updateActiveBank defaultCcBankGroups defaultGlobalCcBank
        cHeldButtons12).currentBankIdx = 1 ∧
    ((updateActiveBank defaultCcBankGroups defaultGlobalCcBank
        cHeldButtons12).sliders.getD 0 initMidiSlider).currentAssignedCcNumber = 8 ∧
    ((updateActiveBank defaultCcBankGroups defaultGlobalCcBank
        cHeldButtons12).sliders.getD 0 initMidiSlider).additionalAssignedCcNumbers =
      [8, 12] := by decide

/-- C3 amended: whenever CC reassignment runs with an active
(non-global) bank and a non-empty held set, each slider's secondary CC
list consists of the table lookups `lookup(bank_group, b, slider_index)`
for *every* currently-held bank `b` — including the active bank itself,
whose own CC number is therefore duplicated into the secondary list
(the duplicate is harmless at emission time because the ledger
deduplicates); and the held set tracked by
`update_held_button_indicies` is exactly the list of pressed button
indices. -/
theorem C3_secondary_cc_numbers (g : List (List (List ℤ))) (gb : List ℤ)
    (c : MidiController) (idx : ℕ) (hidx : idx < c.sliders.length)
    (hbank : c.currentBankIdx ≠ -1) (hadd : c.additionalBankIndicies ≠ []) :
    ((updateSliderCcAssignments g gb c).sliders.getD idx
        initMidiSlider).additionalAssignedCcNumbers =
      c.additionalBankIndicies.map (fun buttonIdx =>
        ((g.getD c.currentBankGroupIdx.toNat []).getD buttonIdx []).getD idx 0) ∧
    ∀ c' : MidiController, (updateHeldButtonIndicies c').additionalBankIndicies =
      (c'.buttons.enum.filter (fun p => p.2.pressed)).map Prod.fst :=
  ⟨updateSliderCcAssignments_additional g gb c idx hidx hbank hadd,
    fun c' => updateHeldButtonIndicies_additional c'⟩

/-- Witness for C3 (amended) at the concrete two-buttons-held state. -/
theorem C3_secondary_cc_numbers_witness :
    ((updateSliderCcAssignments defaultCcBankGroups defaultGlobalCcBank
        cLayering).sliders.getD 0 initMidiSlider).additionalAssignedCcNumbers =
      cLayering.additionalBankIndicies.map (fun buttonIdx =>
        ((defaultCcBankGroups.getD cLayering.currentBankGroupIdx.toNat []).getD
          buttonIdx []).getD 0 0) ∧
    ∀ c' : MidiController, (updateHeldButtonIndicies c').additionalBankIndicies =
      (c'.buttons.enum.filter (fun p => p.2.pressed)).map Prod.fst :=
  C3_secondary_cc_numbers defaultCcBankGroups defaultGlobalCcBank cLayering 0
    (by decide) (by decide) (by decide)

/-! ## Claim C9: double-press lock toggling -/

/-- C9: a second press of a button within `DOUBLE_PRESS_TIME = 0.3s` of
the previous press sets its double-press flag; and when a button reports
a double-press, `handle_lock_changes` toggles the lock on that button's
bank index: if that bank is currently locked it unlocks, otherwise
(including when a different bank is locked) it locks that bank,
resetting `unlock_pending` and recomputing the active bank to the locked
one. -/
theorem C9_double_press_lock_toggle :
    (∀ (b : BankButton) (rose value : Bool) (t : ℚ),
      t - b.lastPressTimeVal ≤ cfg.DOUBLE_PRESS_TIME →
      ((bankButtonUpdate b true rose value t).1).wasDoublePressed = true) ∧
    (∀ (g : List (List (List ℤ))) (gb : List ℤ) (c : MidiController) (idx : ℕ),
      c.buttons.findIdx? (fun b => b.wasDoublePressed) = some idx →
      ((c.lockedBankIdx = (idx : ℤ) →
          (handleLockChanges g gb c).lockedBankIdx = -1) ∧
        (c.lockedBankIdx ≠ (idx : ℤ) →
          (handleLockChanges g gb c).lockedBankIdx = (idx : ℤ) ∧
          (handleLockChanges g gb c).unlockPending = false ∧
          (handleLockChanges g gb c).currentBankIdx = (idx : ℤ)))) := by
  constructor
  · intro b rose value t h
    simp [bankButtonUpdate, BankButton.wasDoublePressed, h]
  · intro g gb c idx hfind
    simp only [handleLockChanges, apply_ite MidiController.buttons,
      apply_ite MidiController.lockedBankIdx, ite_self, hfind]
    constructor
    · intro hlock
      simp only [if_pos hlock]
      apply unlockBank_lockedBankIdx
      simp only [apply_ite MidiController.lockedBankIdx, ite_self]
      omega
    · intro hlock
      simp only [if_neg hlock]
      exact ⟨lockBank_lockedBankIdx .., lockBank_unlockPending ..,
        lockBank_currentBankIdx ..⟩

/-- Witness for C9: a press at time 0.1s after the previous press sets
the flag, and a double-press report on unlocked button 1 locks bank 1. -/
theorem C9_double_press_lock_toggle_witness :
    ((bankButtonUpdate initBankButton true false false (1/10)).1).wasDoublePressed =
      true ∧
    (handleLockChanges defaultCcBankGroups defaultGlobalCcBank
        cDoublePressOn1).lockedBankIdx = 1 ∧
    (handleLockChanges defaultCcBankGroups defaultGlobalCcBank
        cDoublePressOn1).unlockPending = false ∧
    (handleLockChanges defaultCcBankGroups defaultGlobalCcBank
        cDoublePressOn1).currentBankIdx = 1 :=
  ⟨C9_double_press_lock_toggle.1 initBankButton false false (1/10) (by norm_num
      [initBankButton, cfg.DOUBLE_PRESS_TIME]),
    (C9_double_press_lock_toggle.2 defaultCcBankGroups defaultGlobalCcBank
      cDoublePressOn1 1 (by decide)).2 (by decide)⟩

end MidiCherry
